import Mathlib

/-!
Shallow embedding of the e-commerce CRUD API in `src/app.py` (Flask +
SQLAlchemy + marshmallow), restricted to the data model and the route
handlers the verified claims are about.

Modelling conventions, justified by the source and the semantics of the
frameworks it uses:

* Database rows (`User`, `Order`, `Product`) mirror the declarative models
  of app.py lines 44-73.  `User.address` is a nullable column
  (`nullable=True`), hence `Option String`.  `Order.user_id` is declared
  `Mapped[int]` over `ForeignKey("users.id")`, i.e. a NOT NULL column; it
  is modelled as `Option Nat` because the ORM can hold a `None` value for
  it in the session (SQLAlchemy's default cascade de-associates children
  of a deleted parent by nulling the foreign key), and the NOT NULL
  constraint is enforced when the session is flushed at commit.
* The junction table `order_product` (lines 34-39) is a list of
  `(order_id, product_id)` pairs with a composite primary key.
* `DBState` is the committed database; every handler takes and returns a
  state.  Auto-increment primary keys are modelled as max-of-ids + 1.
* Handlers return `Outcome × DBState`.  `Outcome.resp` is an HTTP
  response; `Outcome.pyError` is an uncaught Python/database exception,
  which Flask turns into a 500 response, with the session rolled back by
  Flask-SQLAlchemy teardown, so the returned state is the pre-state.
* `commitThen` models `db.session.commit()`: the database checks its
  declared constraints (primary keys, UNIQUE on users.email and
  products.product_name, NOT NULL on orders.user_id, foreign keys); a
  violation raises an uncaught IntegrityError and rolls back.
* marshmallow schema `load` (`users_schema.load` etc., generated by
  `SQLAlchemyAutoSchema`) is modelled by `loadUser`/`loadProduct`/
  `loadOrder`: auto-increment primary keys are dump-only, columns that are
  `nullable=False` without defaults are required, `String(n)` columns get
  a max-length validator, nullable columns accept null and are optional.
  A loaded payload is a dict, so an optional field that was absent from
  the request is an absent key: `LoadedUser.address = none` and a
  subscript access `user_data["address"]` raises `KeyError`.
* Serialization (`schema.jsonify(x)`): dumping an ORM row emits every
  model column including `id`; dumping a plain dict emits only the keys
  the dict has (marshmallow skips missing attributes), so `id` is absent.
* Timestamps and float prices are carried opaquely (no arithmetic or
  formatting on them is performed by any handler), as `Nat` and `Int`.
-/

namespace ECommerceApi

abbrev Price := Int
abbrev Timestamp := Nat

/-- Row of the `users` table (app.py lines 44-51). -/
structure User where
  id : Nat
  name : String
  email : String
  address : Option String
deriving DecidableEq, Repr

/-- Row of the `orders` table (app.py lines 54-63).  `user_id` is a
NOT NULL foreign key column; the `Option` is the in-session ORM value
(see module docstring), with NOT NULL checked at commit. -/
structure Order where
  id : Nat
  order_date_time : Timestamp
  user_id : Option Nat
deriving DecidableEq, Repr

/-- Row of the `products` table (app.py lines 66-73). -/
structure Product where
  id : Nat
  product_name : String
  price : Price
deriving DecidableEq, Repr

/-- The committed database: the four tables of the schema. -/
structure DBState where
  users : List User
  orders : List Order
  products : List Product
  order_product : List (Nat × Nat)
deriving DecidableEq, Repr

/-- The constraints declared by the schema DDL (app.py lines 34-73):
primary-key uniqueness for the three entity tables and the composite-key
junction table, UNIQUE on `users.email` and `products.product_name`,
NOT NULL on `orders.user_id`, and the foreign keys
`orders.user_id → users.id`, `order_product.order_id → orders.id`,
`order_product.product_id → products.id`.  The database checks them when
a transaction is committed. -/
def ConstraintsOk (s : DBState) : Prop :=
  (s.users.map User.id).Nodup ∧
  (s.users.map User.email).Nodup ∧
  (s.orders.map Order.id).Nodup ∧
  (s.products.map Product.id).Nodup ∧
  (s.products.map Product.product_name).Nodup ∧
  s.order_product.Nodup ∧
  (∀ o ∈ s.orders, o.user_id.isSome = true) ∧
  (∀ o ∈ s.orders, ∀ uid, o.user_id = some uid → ∃ u ∈ s.users, u.id = uid) ∧
  (∀ pr ∈ s.order_product,
    (∃ o ∈ s.orders, o.id = pr.1) ∧ (∃ p ∈ s.products, p.id = pr.2))

instance (s : DBState) : Decidable (ConstraintsOk s) := by
  unfold ConstraintsOk; infer_instance

/-! Section: JSON responses -/

/-- Serialized user as produced by `UserSchema` (fields `id`, `name`,
`email`, `address`).  Each field is absent (`none` on the outer layer,
for `id` and `address`) when the dumped object lacks the attribute. -/
structure UserJson where
  id : Option Nat
  name : String
  email : String
  address : Option (Option String)
deriving DecidableEq, Repr

/-- Serialized order as produced by `OrderSchema` (`include_fk = True`,
so `user_id` is a field; relationships are not auto-included). -/
structure OrderJson where
  id : Option Nat
  order_date_time : Timestamp
  user_id : Option Nat
deriving DecidableEq, Repr

/-- Serialized product as produced by `ProductSchema`. -/
structure ProductJson where
  id : Option Nat
  product_name : String
  price : Price
deriving DecidableEq, Repr

/-- Body of an HTTP response produced by a handler. -/
inductive Body where
  | message (m : String)
  | fieldErrors (errs : List (String × String))
  | userJson (u : UserJson)
  | orderJson (o : OrderJson)
  | productJson (p : ProductJson)
deriving DecidableEq, Repr

/-- Result of running a handler: an HTTP response, or an uncaught Python
exception (which Flask reports as a 500 server error). -/
inductive Outcome where
  | resp (status : Nat) (body : Body)
  | pyError (exc : String)
deriving DecidableEq, Repr

/-- HTTP status of an outcome; an uncaught exception has none (Flask
turns it into a 500 error page outside the handler). -/
def Outcome.status : Outcome → Option Nat
  | .resp c _ => some c
  | .pyError _ => none

/-! Section: Request payloads and marshmallow `load` -/

/-- JSON body of a POST/PUT user request, projected onto the schema's
loadable fields.  `none` = key absent.  `address` may also be JSON null
(`some none`), which the schema accepts since the column is nullable. -/
structure UserPayload where
  name : Option String
  email : Option String
  address : Option (Option String)
deriving DecidableEq, Repr

/-- The dict returned by `users_schema.load`: required fields are
present; `address` keeps its present/absent status from the request. -/
structure LoadedUser where
  name : String
  email : String
  address : Option (Option String)
deriving DecidableEq, Repr

/-- JSON body of a POST/PUT product request. -/
structure ProductPayload where
  product_name : Option String
  price : Option Price
deriving DecidableEq, Repr

/-- The dict returned by `products_schema.load`. -/
structure LoadedProduct where
  product_name : String
  price : Price
deriving DecidableEq, Repr

/-- JSON body of a POST order request (`include_fk` makes `user_id`
loadable; `id` stays dump-only). -/
structure OrderPayload where
  order_date_time : Option Timestamp
  user_id : Option Nat
deriving DecidableEq, Repr

/-- The dict returned by `orders_schema.load`. -/
structure LoadedOrder where
  order_date_time : Timestamp
  user_id : Nat
deriving DecidableEq, Repr

/-- Field errors collected by `users_schema.load`: missing required
fields and `String(n)` length validators (name ≤ 30, email ≤ 100,
address ≤ 100; address is optional and nullable). -/
def userFieldErrors (p : UserPayload) : List (String × String) :=
  (match p.name with
   | none => [("name", "Missing data for required field.")]
   | some n => if n.length ≤ 30 then [] else [("name", "Longer than maximum length 30.")]) ++
  (match p.email with
   | none => [("email", "Missing data for required field.")]
   | some e => if e.length ≤ 100 then [] else [("email", "Longer than maximum length 100.")]) ++
  (match p.address with
   | none => []
   | some none => []
   | some (some a) => if a.length ≤ 100 then [] else [("address", "Longer than maximum length 100.")])

/-- `users_schema.load(request.json)`: a validated dict or a
ValidationError carrying the field errors. -/
def loadUser (p : UserPayload) : Except (List (String × String)) LoadedUser :=
  match p.name, p.email with
  | some n, some e =>
    if userFieldErrors p = [] then .ok ⟨n, e, p.address⟩
    else .error (userFieldErrors p)
  | _, _ => .error (userFieldErrors p)

/-- Field errors collected by `products_schema.load` (product_name ≤ 100
and required; price required; both columns NOT NULL). -/
def productFieldErrors (p : ProductPayload) : List (String × String) :=
  (match p.product_name with
   | none => [("product_name", "Missing data for required field.")]
   | some n => if n.length ≤ 100 then [] else [("product_name", "Longer than maximum length 100.")]) ++
  (match p.price with
   | none => [("price", "Missing data for required field.")]
   | some _ => [])

/-- `products_schema.load(request.json)`. -/
def loadProduct (p : ProductPayload) : Except (List (String × String)) LoadedProduct :=
  match p.product_name, p.price with
  | some n, some pr =>
    if productFieldErrors p = [] then .ok ⟨n, pr⟩
    else .error (productFieldErrors p)
  | _, _ => .error (productFieldErrors p)

/-- Field errors collected by `orders_schema.load` (both columns are
NOT NULL without defaults, hence required). -/
def orderFieldErrors (p : OrderPayload) : List (String × String) :=
  (match p.order_date_time with
   | none => [("order_date_time", "Missing data for required field.")]
   | some _ => []) ++
  (match p.user_id with
   | none => [("user_id", "Missing data for required field.")]
   | some _ => [])

/-- `orders_schema.load(request.json)`. -/
def loadOrder (p : OrderPayload) : Except (List (String × String)) LoadedOrder :=
  match p.order_date_time, p.user_id with
  | some dt, some uid => .ok ⟨dt, uid⟩
  | _, _ => .error (orderFieldErrors p)

/-! Section: Serialization (`schema.jsonify`) -/

/-- Dump of a `User` ORM row: all columns, including the primary key. -/
def dumpUser (u : User) : UserJson := ⟨some u.id, u.name, u.email, some u.address⟩

/-- Dump of the plain dict returned by `users_schema.load`: marshmallow
skips attributes the object does not have, so `id` (never in the dict)
is absent, and `address` is emitted only when the dict has the key. -/
def dumpUserDict (d : LoadedUser) : UserJson := ⟨none, d.name, d.email, d.address⟩

/-- Dump of an `Order` ORM row. -/
def dumpOrder (o : Order) : OrderJson := ⟨some o.id, o.order_date_time, o.user_id⟩

/-- Dump of a `Product` ORM row. -/
def dumpProduct (p : Product) : ProductJson := ⟨some p.id, p.product_name, p.price⟩

/-- Dump of the dict returned by `products_schema.load`: no `id` key. -/
def dumpProductDict (d : LoadedProduct) : ProductJson := ⟨none, d.product_name, d.price⟩

/-! Section: Database session primitives -/

/-- `db.session.get(User, id)`: primary-key lookup. -/
def dbGetUser (s : DBState) (i : Nat) : Option User :=
  s.users.find? (fun u => u.id == i)

/-- `db.session.get(Order, id)`. -/
def dbGetOrder (s : DBState) (i : Nat) : Option Order :=
  s.orders.find? (fun o => o.id == i)

/-- `db.session.get(Product, id)`. -/
def dbGetProduct (s : DBState) (i : Nat) : Option Product :=
  s.products.find? (fun p => p.id == i)

/-- Auto-increment primary key: one past the largest id in use. -/
def freshId (ids : List Nat) : Nat := ids.foldr max 0 + 1

/-- `db.session.commit()` from state `old` with pending state `new`:
the database checks the declared constraints; on success the handler
continues and returns `r` over the new state, otherwise an
IntegrityError is raised (uncaught by every handler) and the session is
rolled back to the committed state. -/
def commitThen (old new : DBState) (r : Outcome) : Outcome × DBState :=
  if ConstraintsOk new then (r, new) else (.pyError "IntegrityError", old)

/-! Section: Route handlers -/

/-- `GET /users/<int:id>` (app.py lines 121-126). -/
def get_user_by_id (s : DBState) (i : Nat) : Outcome × DBState :=
  match dbGetUser s i with
  | none => (.resp 404 (.message "Invalid user ID"), s)
  | some u => (.resp 200 (.userJson (dumpUser u)), s)

/-- `POST /users` (app.py lines 129-144).  After a successful load the
handler evaluates `user_data["address"]` while constructing the new
`User`; when the optional `address` key is absent from the validated
dict this raises `KeyError` before anything is added to the session. -/
def create_user (s : DBState) (p : UserPayload) : Outcome × DBState :=
  match loadUser p with
  | .error e => (.resp 400 (.fieldErrors e), s)
  | .ok d =>
    match d.address with
    | none => (.pyError "KeyError", s)
    | some addr =>
      let u : User := ⟨freshId (s.users.map User.id), d.name, d.email, addr⟩
      commitThen s { s with users := s.users ++ [u] }
        (.resp 201 (.userJson (dumpUser u)))

/-- `PUT /users/<int:id>` (app.py lines 147-168).  Looks the user up
first; then loads the body; then assigns `user.name`, `user.email`,
`user.address = user_data["address"]` — the last subscript raises
`KeyError` when the optional key is absent (the in-session attribute
mutations are rolled back, nothing was committed).  On success it
returns the dump of `user_data` (the dict), not of the user row. -/
def update_user (s : DBState) (i : Nat) (p : UserPayload) : Outcome × DBState :=
  match dbGetUser s i with
  | none => (.resp 404 (.message "Invalid user ID"), s)
  | some _ =>
    match loadUser p with
    | .error e => (.resp 400 (.fieldErrors e), s)
    | .ok d =>
      match d.address with
      | none => (.pyError "KeyError", s)
      | some addr =>
        let users' := s.users.map (fun u =>
          if u.id == i then { u with name := d.name, email := d.email, address := addr }
          else u)
        commitThen s { s with users := users' }
          (.resp 200 (.userJson (dumpUserDict d)))

/-- `DELETE /users/<int:id>` (app.py lines 171-179).
`db.session.delete(user)` deletes the user row; the `User.orders`
relationship carries no delete cascade, so SQLAlchemy de-associates the
user's orders by nulling their `user_id` foreign key during the flush;
the commit then checks the NOT NULL constraint on that column. -/
def delete_user (s : DBState) (i : Nat) : Outcome × DBState :=
  match dbGetUser s i with
  | none => (.resp 404 (.message "Invalid user ID"), s)
  | some _ =>
    let s' : DBState :=
      { s with
        users := s.users.filter (fun u => u.id != i),
        orders := s.orders.map (fun o =>
          if o.user_id == some i then { o with user_id := none } else o) }
    commitThen s s'
      (.resp 200 (.message ("succesfully deleted user ID: " ++ toString i)))

/-- `GET /products/<int:id>` (app.py lines 191-197). -/
def get_product_by_id (s : DBState) (i : Nat) : Outcome × DBState :=
  match dbGetProduct s i with
  | none => (.resp 404 (.message ("Invalid product ID: " ++ toString i)), s)
  | some p => (.resp 200 (.productJson (dumpProduct p)), s)

/-- `POST /products` (app.py lines 200-216).  On success it returns the
dump of `product_data` (the validated dict), not of the new row. -/
def create_product (s : DBState) (p : ProductPayload) : Outcome × DBState :=
  match loadProduct p with
  | .error e => (.resp 400 (.fieldErrors e), s)
  | .ok d =>
    let np : Product := ⟨freshId (s.products.map Product.id), d.product_name, d.price⟩
    commitThen s { s with products := s.products ++ [np] }
      (.resp 201 (.productJson (dumpProductDict d)))

/-- `PUT /products/<int:id>` (app.py lines 219-235).  Note the 404
message spells `id` in lower case, unlike the GET/DELETE routes. -/
def update_product (s : DBState) (i : Nat) (p : ProductPayload) : Outcome × DBState :=
  match dbGetProduct s i with
  | none => (.resp 404 (.message ("Invalid product id: " ++ toString i)), s)
  | some prod =>
    match loadProduct p with
    | .error e => (.resp 400 (.fieldErrors e), s)
    | .ok d =>
      let products' := s.products.map (fun q =>
        if q.id == i then { q with product_name := d.product_name, price := d.price }
        else q)
      commitThen s { s with products := products' }
        (.resp 200 (.productJson (dumpProduct
          { prod with product_name := d.product_name, price := d.price })))

/-- `DELETE /products/<int:id>` (app.py lines 238-247).  Deleting a
product also deletes its `order_product` junction rows (SQLAlchemy
handles `secondary` table rows of a deleted object). -/
def delete_product (s : DBState) (i : Nat) : Outcome × DBState :=
  match dbGetProduct s i with
  | none => (.resp 404 (.message ("Invalid product ID: " ++ toString i)), s)
  | some _ =>
    let s' : DBState :=
      { s with
        products := s.products.filter (fun p => p.id != i),
        order_product := s.order_product.filter (fun pr => pr.2 != i) }
    commitThen s s'
      (.resp 200 (.message ("Succesfully deleted Product ID: " ++ toString i)))

/-- `POST /orders` (app.py lines 270-291): load the body, then check the
referenced user exists (404 before anything is persisted), then insert
and commit. -/
def create_order (s : DBState) (p : OrderPayload) : Outcome × DBState :=
  match loadOrder p with
  | .error e => (.resp 400 (.fieldErrors e), s)
  | .ok d =>
    match dbGetUser s d.user_id with
    | none => (.resp 404 (.message ("Invalid user ID: " ++ toString d.user_id)), s)
    | some _ =>
      let no : Order := ⟨freshId (s.orders.map Order.id), d.order_date_time, some d.user_id⟩
      commitThen s { s with orders := s.orders ++ [no] }
        (.resp 201 (.orderJson (dumpOrder no)))

/-- `PUT /orders/<order_id>/add_product/<product_id>` (app.py lines
294-313).  `product in order.products` holds exactly when the junction
has the `(order_id, product_id)` row.  The already-associated branch
returns `jsonify(...)` without an explicit status, which Flask sends as
200. -/
def add_product_to_order (s : DBState) (oid pid : Nat) : Outcome × DBState :=
  match dbGetOrder s oid with
  | none => (.resp 404 (.message ("Invalid order ID: " ++ toString oid)), s)
  | some o =>
    match dbGetProduct s pid with
    | none => (.resp 404 (.message ("Invalid product ID: " ++ toString pid)), s)
    | some _ =>
      if (oid, pid) ∈ s.order_product then
        (.resp 200 (.message ("product id: " ++ toString pid ++ " already in order ID: " ++ toString oid)), s)
      else
        commitThen s { s with order_product := s.order_product ++ [(oid, pid)] }
          (.resp 200 (.orderJson (dumpOrder o)))

/-- `DELETE /orders/<order_id>/remove_product/<product_id>` (app.py
lines 316-337). -/
def delete_product_from_order (s : DBState) (oid pid : Nat) : Outcome × DBState :=
  match dbGetOrder s oid with
  | none => (.resp 404 (.message ("Invalid order ID: " ++ toString oid)), s)
  | some _ =>
    match dbGetProduct s pid with
    | none => (.resp 404 (.message ("Invalid product ID: " ++ toString pid)), s)
    | some _ =>
      if (oid, pid) ∈ s.order_product then
        commitThen s { s with order_product := s.order_product.erase (oid, pid) }
          (.resp 200 (.message ("Removed product " ++ toString pid ++ " from order " ++ toString oid)))
      else
        (.resp 400 (.message ("Product " ++ toString pid ++ " not in " ++ toString oid)), s)

/-! Section: Generic list helpers -/

/-- Every element of a list is bounded by its `foldr max 0`. -/
theorem le_foldr_max (l : List Nat) : ∀ x ∈ l, x ≤ l.foldr max 0 := by
  induction l with
  | nil => intro x hx; cases hx
  | cons b t ih =>
    intro x hx
    rcases List.mem_cons.mp hx with h | h
    · exact h ▸ le_max_left _ _
    · exact le_trans (ih x h) (le_max_right _ _)

/-- A fresh auto-increment id is strictly larger than every id in use. -/
theorem lt_freshId {l : List Nat} {x : Nat} (hx : x ∈ l) : x < freshId l :=
  Nat.lt_succ_of_le (le_foldr_max l x hx)

/-- `find?` skips a prefix on which the predicate is everywhere false. -/
theorem find?_append_of_forall_false {α : Type} {p : α → Bool} {l₁ : List α}
    (l₂ : List α) (h : ∀ x ∈ l₁, p x = false) :
    (l₁ ++ l₂).find? p = l₂.find? p := by
  induction l₁ with
  | nil => rfl
  | cons b t ih =>
    simp only [List.cons_append, List.find?]
    rw [h b (List.mem_cons_self b t)]
    exact ih (fun x hx => h x (List.mem_cons_of_mem b hx))

/-- Appending a fresh element preserves `Nodup`. -/
theorem nodup_append_singleton {α : Type} {l : List α} {a : α}
    (hn : l.Nodup) (ha : a ∉ l) : (l ++ [a]).Nodup := by
  simp [List.nodup_append, hn, ha]

/-- In a duplicate-free list containing `a`, exactly one entry equals `a`. -/
theorem length_filter_eq_one_of_nodup_mem {α : Type} [DecidableEq α]
    {l : List α} {a : α} (hn : l.Nodup) (ha : a ∈ l) :
    (l.filter (fun x => decide (x = a))).length = 1 := by
  induction l with
  | nil => cases ha
  | cons b t ih =>
    have hbt : b ∉ t := (List.nodup_cons.mp hn).1
    have hnt : t.Nodup := (List.nodup_cons.mp hn).2
    rcases List.mem_cons.mp ha with h | h
    · subst h
      have hft : t.filter (fun x => decide (x = a)) = [] := by
        rw [List.filter_eq_nil_iff]
        intro x hx
        simp only [decide_eq_true_eq]
        intro hxa; exact hbt (hxa ▸ hx)
      simp [List.filter_cons, hft]
    · have hba : b ≠ a := fun hba => hbt (hba ▸ h)
      simp only [List.filter_cons, decide_eq_true_eq]
      rw [if_neg hba]
      exact ih hnt h

/-- If `a` is absent from `l`, the filter for `a` over `l` is empty. -/
theorem filter_eq_nil_of_not_mem {α : Type} [DecidableEq α]
    {l : List α} {a : α} (ha : a ∉ l) :
    l.filter (fun x => decide (x = a)) = [] := by
  rw [List.filter_eq_nil_iff]
  intro x hx
  simp only [decide_eq_true_eq]
  intro hxa; exact ha (hxa ▸ hx)

/-! Section: Concrete fixtures used by witnesses and counterexamples -/

/-- The empty database (fresh `db.create_all()`). -/
def dbEmpty : DBState := ⟨[], [], [], []⟩

/-- A stored user row. -/
def adaUser : User := ⟨1, "Ada", "ada@example.com", some "1 Main St"⟩

/-- A database holding one user. -/
def dbUser1 : DBState := ⟨[adaUser], [], [], []⟩

/-- An order row belonging to user 1. -/
def order1 : Order := ⟨1, 100, some 1⟩

/-- A product row. -/
def widget : Product := ⟨1, "Widget", 999⟩

/-- A database holding one user and one of their orders. -/
def dbUserOrder : DBState := ⟨[adaUser], [order1], [], []⟩

/-- A database holding one user, one order, one product, and an empty
junction table. -/
def dbShop : DBState := ⟨[adaUser], [order1], [widget], []⟩

/-! Section: Claims -/

/-- Claim C1: The spec declares `address` optional (the column is nullable
and the schema does not require it), and says a POST /users body with
valid `name` and `email` and no `address` is persisted and answered with
201.  The code instead evaluates `user_data["address"]` (app.py line
139), and the validated dict has no `"address"` key when the request
omitted it, so the handler raises an uncaught `KeyError` (an HTTP 500)
and persists nothing.  The payload below passes validation
(`users_schema.load` succeeds), yet `create_user` raises instead of
returning 201. -/
theorem claim_C1_missing_address_raises_keyerror :
    loadUser ⟨some "Ada", some "ada@example.com", none⟩ =
      .ok ⟨"Ada", "ada@example.com", none⟩ ∧
    create_user dbEmpty ⟨some "Ada", some "ada@example.com", none⟩ =
      (.pyError "KeyError", dbEmpty) := by
  constructor <;> rfl

/-- Claim C3: A POST /orders body that validates but names a `user_id`
with no matching user is answered 404 with message
`"Invalid user ID: {id}"`, and the state — in particular the orders
table — is returned unchanged: the handler returns before
`db.session.add`. -/
theorem claim_C3_create_order_invalid_user (s : DBState) (p : OrderPayload)
    (d : LoadedOrder) (hload : loadOrder p = .ok d)
    (huser : dbGetUser s d.user_id = none) :
    create_order s p =
      (.resp 404 (.message ("Invalid user ID: " ++ toString d.user_id)), s) := by
  unfold create_order
  rw [hload]
  simp only
  rw [huser]

/-- Witness for C3: a concrete well-formed payload naming user 7 in a
database with no user 7. -/
theorem claim_C3_witness :
    create_order dbUser1 ⟨some 100, some 7⟩ =
      (.resp 404 (.message "Invalid user ID: 7"), dbUser1) :=
  claim_C3_create_order_invalid_user dbUser1 ⟨some 100, some 7⟩ ⟨100, 7⟩
    (by rfl) (by rfl)

/-- Claim C4, counterexample: The claim says all three id-taking product
endpoints answer a missing id with the message
`"Invalid product ID: {id}"`.  `update_product` (PUT) answers 404 with
`"Invalid product id: {id}"` — lower-case `id` (app.py line 223) — which
is a different string, refuting the claim at product id 1 on the empty
database. -/
theorem claim_C4_counterexample :
    update_product dbEmpty 1 ⟨some "Widget", some 999⟩ =
      (.resp 404 (.message "Invalid product id: 1"), dbEmpty) ∧
    (update_product dbEmpty 1 ⟨some "Widget", some 999⟩).1 ≠
      .resp 404 (.message "Invalid product ID: 1") := by
  constructor
  · rfl
  · decide

/-- Claim C4, amended: For a product id with no matching row, GET and
DELETE answer 404 with `"Invalid product ID: {id}"`, while PUT answers
404 with the lower-cased `"Invalid product id: {id}"`; all three leave
the state unchanged. -/
theorem claim_C4_product_404_messages (s : DBState) (i : Nat)
    (pp : ProductPayload) (h : dbGetProduct s i = none) :
    get_product_by_id s i =
      (.resp 404 (.message ("Invalid product ID: " ++ toString i)), s) ∧
    delete_product s i =
      (.resp 404 (.message ("Invalid product ID: " ++ toString i)), s) ∧
    update_product s i pp =
      (.resp 404 (.message ("Invalid product id: " ++ toString i)), s) := by
  refine ⟨?_, ?_, ?_⟩
  · unfold get_product_by_id
    rw [h]
  · unfold delete_product
    rw [h]
  · unfold update_product
    rw [h]

/-- Witness for C4 (amended): product id 1 on the empty database. -/
theorem claim_C4_witness :
    get_product_by_id dbEmpty 1 =
      (.resp 404 (.message "Invalid product ID: 1"), dbEmpty) ∧
    delete_product dbEmpty 1 =
      (.resp 404 (.message "Invalid product ID: 1"), dbEmpty) ∧
    update_product dbEmpty 1 ⟨some "Widget", some 999⟩ =
      (.resp 404 (.message "Invalid product id: 1"), dbEmpty) :=
  claim_C4_product_404_messages dbEmpty 1 ⟨some "Widget", some 999⟩ (by rfl)

/-- Claim C5: Removing a product that exists but is not associated with an
existing order answers 400 with `"Product {pid} not in {oid}"` and
returns the state unchanged (the handler returns before any mutation,
so the order's product set and everything else are untouched). -/
theorem claim_C5_remove_absent_product_400 (s : DBState) (oid pid : Nat)
    (o : Order) (p : Product)
    (ho : dbGetOrder s oid = some o) (hp : dbGetProduct s pid = some p)
    (hnotin : (oid, pid) ∉ s.order_product) :
    delete_product_from_order s oid pid =
      (.resp 400 (.message ("Product " ++ toString pid ++ " not in " ++ toString oid)), s) := by
  unfold delete_product_from_order
  rw [ho]
  simp only
  rw [hp]
  simp only [if_neg hnotin]

/-- Witness for C5: order 1 and product 1 exist and the junction table
is empty. -/
theorem claim_C5_witness :
    delete_product_from_order dbShop 1 1 =
      (.resp 400 (.message "Product 1 not in 1"), dbShop) :=
  claim_C5_remove_absent_product_400 dbShop 1 1 order1 widget
    (by rfl) (by rfl) (by decide)

/-- Claim C9: Whenever PUT /users/{id} answers 200, the body it carries is
the marshmallow dump of `user_data` — the validated request dict —
rather than of the stored `User` row (app.py line 168), so the serialized
`id` field is absent (`none`): a dict has no `id` key and marshmallow
skips missing attributes on dump. -/
theorem claim_C9_put_user_response_omits_id (s : DBState) (i : Nat)
    (p : UserPayload) (b : Body) (s2 : DBState)
    (h : update_user s i p = (.resp 200 b, s2)) :
    ∃ d, loadUser p = .ok d ∧ b = .userJson ⟨none, d.name, d.email, d.address⟩ := by
  unfold update_user at h
  cases hu : dbGetUser s i with
  | none => rw [hu] at h; simp at h
  | some u =>
    rw [hu] at h
    simp only at h
    cases hl : loadUser p with
    | error e => rw [hl] at h; simp at h
    | ok d =>
      rw [hl] at h
      simp only at h
      cases ha : d.address with
      | none => rw [ha] at h; simp at h
      | some addr =>
        rw [ha] at h
        simp only at h
        unfold commitThen at h
        by_cases hc : ConstraintsOk { s with users := s.users.map (fun u =>
          if u.id == i then { u with name := d.name, email := d.email, address := addr }
          else u) }
        · rw [if_pos hc] at h
          refine ⟨d, rfl, ?_⟩
          have hb := (Prod.mk.injEq _ _ _ _ ▸ h).1
          cases hb
          rfl
        · rw [if_neg hc] at h; simp at h

/-- Witness for C9: a successful PUT of user 1, with an explicit null
address, answers 200 with a body whose `id` field is absent. -/
theorem claim_C9_witness :
    ∃ d, loadUser ⟨some "Bob", some "bob@example.com", some none⟩ = .ok d ∧
      Body.userJson ⟨none, "Bob", "bob@example.com", some none⟩ =
        .userJson ⟨none, d.name, d.email, d.address⟩ :=
  claim_C9_put_user_response_omits_id dbUser1 1
    ⟨some "Bob", some "bob@example.com", some none⟩
    (.userJson ⟨none, "Bob", "bob@example.com", some none⟩)
    ⟨[⟨1, "Bob", "bob@example.com", none⟩], [], [], []⟩
    (by rfl)

/-- Claim C10: Whenever POST /products answers 201, the body it carries is
the marshmallow dump of `product_data` — the validated request dict —
rather than of the new `Product` row (app.py line 216), so the
auto-assigned product `id` is absent from the creation response. -/
theorem claim_C10_post_product_response_omits_id (s : DBState)
    (p : ProductPayload) (b : Body) (s2 : DBState)
    (h : create_product s p = (.resp 201 b, s2)) :
    ∃ d, loadProduct p = .ok d ∧ b = .productJson ⟨none, d.product_name, d.price⟩ := by
  unfold create_product at h
  cases hl : loadProduct p with
  | error e => rw [hl] at h; simp at h
  | ok d =>
    rw [hl] at h
    simp only at h
    unfold commitThen at h
    by_cases hc : ConstraintsOk { s with products :=
      s.products ++ [⟨freshId (s.products.map Product.id), d.product_name, d.price⟩] }
    · rw [if_pos hc] at h
      refine ⟨d, rfl, ?_⟩
      have hb := (Prod.mk.injEq _ _ _ _ ▸ h).1
      cases hb
      rfl
    · rw [if_neg hc] at h; simp at h

/-- Witness for C10: a successful POST of a product answers 201 with a
body whose `id` field is absent. -/
theorem claim_C10_witness :
    ∃ d, loadProduct ⟨some "Widget", some 999⟩ = .ok d ∧
      Body.productJson ⟨none, "Widget", 999⟩ =
        .productJson ⟨none, d.product_name, d.price⟩ :=
  claim_C10_post_product_response_omits_id dbEmpty ⟨some "Widget", some 999⟩
    (.productJson ⟨none, "Widget", 999⟩)
    ⟨[], [], [⟨1, "Widget", 999⟩], []⟩
    (by rfl)

/-- Claim C2: For an existing order and existing product, calling
PUT /orders/{oid}/add_product/{pid} twice in a row: the first call
answers 200 (either the fresh association or, if the pair was already
present, the "already in order" notice — Flask sends `jsonify(...)`
without an explicit status as 200), the second call answers 200 with the
"already in order" message, and the final junction table holds exactly
one `(oid, pid)` entry. -/
theorem claim_C2_add_product_twice_idempotent (s : DBState) (oid pid : Nat)
    (o : Order) (p : Product) (hwf : ConstraintsOk s)
    (ho : dbGetOrder s oid = some o) (hp : dbGetProduct s pid = some p) :
    (add_product_to_order s oid pid).1.status = some 200 ∧
    (add_product_to_order (add_product_to_order s oid pid).2 oid pid).1 =
      .resp 200 (.message ("product id: " ++ toString pid ++ " already in order ID: " ++ toString oid)) ∧
    ((add_product_to_order (add_product_to_order s oid pid).2 oid pid).2.order_product.filter
      (fun pr => decide (pr = (oid, pid)))).length = 1 := by
  obtain ⟨hn1, hn2, hn3, hn4, hn5, hn6, hn7, hn8, hn9⟩ := hwf
  by_cases hmem : (oid, pid) ∈ s.order_product
  · have h1 : add_product_to_order s oid pid =
        (.resp 200 (.message ("product id: " ++ toString pid ++ " already in order ID: " ++ toString oid)), s) := by
      unfold add_product_to_order
      rw [ho]
      simp only
      rw [hp]
      simp only [if_pos hmem]
    rw [h1]
    simp only
    rw [h1]
    exact ⟨rfl, rfl, length_filter_eq_one_of_nodup_mem hn6 hmem⟩
  · have hoid : o.id = oid := by
      have := List.find?_some ho
      simpa using this
    have hpid : p.id = pid := by
      have := List.find?_some hp
      simpa using this
    have homem : o ∈ s.orders := List.mem_of_find?_eq_some ho
    have hpmem : p ∈ s.products := List.mem_of_find?_eq_some hp
    have hc : ConstraintsOk { s with order_product := s.order_product ++ [(oid, pid)] } := by
      refine ⟨hn1, hn2, hn3, hn4, hn5, nodup_append_singleton hn6 hmem, hn7, hn8, ?_⟩
      intro pr hpr
      rcases List.mem_append.mp hpr with h | h
      · exact hn9 pr h
      · have : pr = (oid, pid) := List.mem_singleton.mp h
        subst this
        exact ⟨⟨o, homem, hoid⟩, ⟨p, hpmem, hpid⟩⟩
    have h1 : add_product_to_order s oid pid =
        (.resp 200 (.orderJson (dumpOrder o)),
         { s with order_product := s.order_product ++ [(oid, pid)] }) := by
      unfold add_product_to_order
      rw [ho]
      simp only
      rw [hp]
      simp only [if_neg hmem]
      unfold commitThen
      rw [if_pos hc]
    have ho2 : dbGetOrder { s with order_product := s.order_product ++ [(oid, pid)] } oid = some o := ho
    have hp2 : dbGetProduct { s with order_product := s.order_product ++ [(oid, pid)] } pid = some p := hp
    have hmem2 : (oid, pid) ∈ s.order_product ++ [(oid, pid)] :=
      List.mem_append_right _ (List.mem_singleton.mpr rfl)
    have h2 : add_product_to_order { s with order_product := s.order_product ++ [(oid, pid)] } oid pid =
        (.resp 200 (.message ("product id: " ++ toString pid ++ " already in order ID: " ++ toString oid)),
         { s with order_product := s.order_product ++ [(oid, pid)] }) := by
      unfold add_product_to_order
      rw [ho2]
      simp only
      rw [hp2]
      simp only [if_pos hmem2]
    rw [h1]
    simp only
    rw [h2]
    refine ⟨rfl, rfl, ?_⟩
    simp only [List.filter_append, filter_eq_nil_of_not_mem hmem, List.filter_cons,
      decide_eq_true_eq]
    simp

/-- Witness for C2: order 1 and product 1 exist, the junction table is
empty; adding product 1 twice yields 200 twice and one junction row. -/
theorem claim_C2_witness :
    (add_product_to_order dbShop 1 1).1.status = some 200 ∧
    (add_product_to_order (add_product_to_order dbShop 1 1).2 1 1).1 =
      .resp 200 (.message "product id: 1 already in order ID: 1") ∧
    ((add_product_to_order (add_product_to_order dbShop 1 1).2 1 1).2.order_product.filter
      (fun pr => decide (pr = (1, 1)))).length = 1 :=
  claim_C2_add_product_twice_idempotent dbShop 1 1 order1 widget
    (by decide) (by rfl) (by rfl)

/-- Claim C6, counterexample: A payload with valid `name` and `email` and
no `address` key is a valid user payload (the schema validates it — the
column is nullable and optional), yet POST /users raises an uncaught
`KeyError` at `user_data["address"]` and leaves the database unchanged,
so no user is created and no fetch of a created user can return the
payload's fields.  This refutes the claim quantified over every valid
payload. -/
theorem claim_C6_counterexample :
    loadUser ⟨some "Carol", some "carol@example.com", none⟩ =
      .ok ⟨"Carol", "carol@example.com", none⟩ ∧
    create_user dbEmpty ⟨some "Carol", some "carol@example.com", none⟩ =
      (.pyError "KeyError", dbEmpty) := by
  constructor <;> rfl

/-- Claim C6, amended: For every payload that the user schema validates,
that carries the `address` key, and whose email is not already taken
(the `users.email` column is UNIQUE, so a duplicate would abort the
commit), POST /users answers 201 with the created user — serialized with
the payload's name, email and address and the auto-assigned id — and a
subsequent GET /users/{id} at that id answers 200 with the same
serialized user. -/
theorem claim_C6_create_then_get_roundtrip (s : DBState) (p : UserPayload)
    (d : LoadedUser) (ad : Option String) (hwf : ConstraintsOk s)
    (hload : loadUser p = .ok d) (haddr : d.address = some ad)
    (hfresh : d.email ∉ s.users.map User.email) :
    p.name = some d.name ∧ p.email = some d.email ∧ p.address = some ad ∧
    create_user s p =
      (.resp 201 (.userJson ⟨some (freshId (s.users.map User.id)), d.name, d.email, some ad⟩),
       { s with users := s.users ++ [⟨freshId (s.users.map User.id), d.name, d.email, ad⟩] }) ∧
    get_user_by_id
        { s with users := s.users ++ [⟨freshId (s.users.map User.id), d.name, d.email, ad⟩] }
        (freshId (s.users.map User.id)) =
      (.resp 200 (.userJson ⟨some (freshId (s.users.map User.id)), d.name, d.email, some ad⟩),
       { s with users := s.users ++ [⟨freshId (s.users.map User.id), d.name, d.email, ad⟩] }) := by
  obtain ⟨hn1, hn2, hn3, hn4, hn5, hn6, hn7, hn8, hn9⟩ := hwf
  have hpd : p.name = some d.name ∧ p.email = some d.email ∧ p.address = d.address := by
    unfold loadUser at hload
    cases hpn : p.name with
    | none => rw [hpn] at hload; simp at hload
    | some n =>
      cases hpe : p.email with
      | none => rw [hpn, hpe] at hload; simp at hload
      | some e =>
        rw [hpn, hpe] at hload
        simp only at hload
        by_cases he : userFieldErrors p = []
        · rw [if_pos he] at hload
          cases hload
          exact ⟨rfl, rfl, rfl⟩
        · rw [if_neg he] at hload; simp at hload
  set nid := freshId (s.users.map User.id) with hnid
  have hidfresh : nid ∉ s.users.map User.id := fun hmem => lt_irrefl nid (lt_freshId hmem)
  set nu : User := ⟨nid, d.name, d.email, ad⟩ with hnu
  have hc : ConstraintsOk { s with users := s.users ++ [nu] } := by
    refine ⟨?_, ?_, hn3, hn4, hn5, hn6, hn7, ?_, ?_⟩
    · rw [List.map_append]
      exact nodup_append_singleton hn1 hidfresh
    · rw [List.map_append]
      exact nodup_append_singleton hn2 hfresh
    · intro o ho uid huid
      obtain ⟨u, hu, hueq⟩ := hn8 o ho uid huid
      exact ⟨u, List.mem_append_left _ hu, hueq⟩
    · intro pr hpr
      exact hn9 pr hpr
  have hcreate : create_user s p =
      (.resp 201 (.userJson ⟨some nid, d.name, d.email, some ad⟩),
       { s with users := s.users ++ [nu] }) := by
    unfold create_user
    rw [hload]
    simp only
    rw [haddr]
    simp only
    unfold commitThen
    rw [if_pos hc]
    rfl
  have hget : get_user_by_id { s with users := s.users ++ [nu] } nid =
      (.resp 200 (.userJson ⟨some nid, d.name, d.email, some ad⟩),
       { s with users := s.users ++ [nu] }) := by
    unfold get_user_by_id dbGetUser
    simp only
    rw [find?_append_of_forall_false [nu]
      (fun x hx => beq_eq_false_iff_ne.mpr
        (fun hxe : x.id = nid => hidfresh (hxe ▸ List.mem_map_of_mem User.id hx)))]
    simp [List.find?, dumpUser]
  exact ⟨hpd.1, hpd.2.1, haddr ▸ hpd.2.2, hcreate, hget⟩

/-- Witness for C6 (amended): a fresh user created on the empty database
and fetched back at the assigned id 1. -/
theorem claim_C6_witness :
    (⟨some "Eve", some "eve@example.com", some (some "2 Oak Ave")⟩ : UserPayload).name = some "Eve" ∧
    (⟨some "Eve", some "eve@example.com", some (some "2 Oak Ave")⟩ : UserPayload).email = some "eve@example.com" ∧
    (⟨some "Eve", some "eve@example.com", some (some "2 Oak Ave")⟩ : UserPayload).address = some (some "2 Oak Ave") ∧
    create_user dbEmpty ⟨some "Eve", some "eve@example.com", some (some "2 Oak Ave")⟩ =
      (.resp 201 (.userJson ⟨some 1, "Eve", "eve@example.com", some (some "2 Oak Ave")⟩),
       ⟨[⟨1, "Eve", "eve@example.com", some "2 Oak Ave"⟩], [], [], []⟩) ∧
    get_user_by_id ⟨[⟨1, "Eve", "eve@example.com", some "2 Oak Ave"⟩], [], [], []⟩ 1 =
      (.resp 200 (.userJson ⟨some 1, "Eve", "eve@example.com", some (some "2 Oak Ave")⟩),
       ⟨[⟨1, "Eve", "eve@example.com", some "2 Oak Ave"⟩], [], [], []⟩) :=
  claim_C6_create_then_get_roundtrip dbEmpty
    ⟨some "Eve", some "eve@example.com", some (some "2 Oak Ave")⟩
    ⟨"Eve", "eve@example.com", some (some "2 Oak Ave")⟩ (some "2 Oak Ave")
    (by decide) (by rfl) (by rfl) (by decide)

/-- Overwriting one user's fields (matched by id) keeps the email column
duplicate-free, provided the new email is not used by any other user. -/
theorem nodup_emails_after_update (l : List User) (i : Nat) (nm em : String)
    (ad : Option String)
    (hid : (l.map User.id).Nodup) (hem : (l.map User.email).Nodup)
    (hfresh : ∀ u ∈ l, u.id ≠ i → u.email ≠ em) :
    ((l.map (fun u => if u.id == i
        then { u with name := nm, email := em, address := ad } else u)).map User.email).Nodup := by
  induction l with
  | nil => simp
  | cons b t ih =>
    simp only [List.map_cons, List.nodup_cons] at hid hem ⊢
    obtain ⟨hbid, hid2⟩ := hid
    obtain ⟨hbem, hem2⟩ := hem
    have hfresh2 : ∀ u ∈ t, u.id ≠ i → u.email ≠ em :=
      fun u hu => hfresh u (List.mem_cons_of_mem b hu)
    refine ⟨?_, ih hid2 hem2 hfresh2⟩
    by_cases hbi : b.id = i
    · rw [if_pos (beq_iff_eq.mpr hbi)]
      intro hmem
      obtain ⟨x, hx, hxe⟩ := List.mem_map.mp hmem
      obtain ⟨w, hw, hwx⟩ := List.mem_map.mp hx
      have hwid : w.id ≠ i := by
        intro hwi
        exact hbid (hbi ▸ hwi ▸ List.mem_map_of_mem User.id hw)
      rw [if_neg (by simp [hwid])] at hwx
      exact hfresh2 w hw hwid (by rw [← hwx] at hxe; exact hxe)
    · rw [if_neg (by simp [hbi])]
      intro hmem
      obtain ⟨x, hx, hxe⟩ := List.mem_map.mp hmem
      obtain ⟨w, hw, hwx⟩ := List.mem_map.mp hx
      by_cases hwi : w.id = i
      · rw [if_pos (beq_iff_eq.mpr hwi)] at hwx
        have : b.email = em := by rw [← hwx] at hxe; exact hxe.symm ▸ rfl
        exact hfresh b (List.mem_cons_self b t) hbi (by rw [← hwx] at hxe; exact hxe.symm)
      · rw [if_neg (by simp [hwi])] at hwx
        subst hwx
        exact hbem (hxe ▸ List.mem_map_of_mem User.email hw)

/-- Claim C7, counterexample: User 1 exists and the payload is valid (the
schema accepts it — `address` is optional), yet PUT /users/1 raises an
uncaught `KeyError` at `user_data["address"]` (app.py line 165) instead
of answering 200; the committed state is unchanged. -/
theorem claim_C7_counterexample :
    dbGetUser dbUser1 1 = some adaUser ∧
    loadUser ⟨some "Dana", some "dana@example.com", none⟩ =
      .ok ⟨"Dana", "dana@example.com", none⟩ ∧
    update_user dbUser1 1 ⟨some "Dana", some "dana@example.com", none⟩ =
      (.pyError "KeyError", dbUser1) := by
  refine ⟨?_, ?_, ?_⟩ <;> rfl

/-- Claim C7, amended: PUT /users/{id} answers 404 when no user with that
id exists.  Otherwise, for every payload that the user schema validates,
that carries the `address` key, and whose email is not used by a
*different* user (the `users.email` column is UNIQUE, so such a
duplicate would abort the commit), the handler overwrites exactly the
name, email and address of that user — leaving its id, all other users,
and the orders, products and junction tables unchanged, as the explicit
post-state shows — and answers 200. -/
theorem claim_C7_update_user_spec (s : DBState) (i : Nat) (p : UserPayload)
    (d : LoadedUser) (ad : Option String) (hwf : ConstraintsOk s)
    (hload : loadUser p = .ok d) (haddr : d.address = some ad)
    (hfresh : ∀ u ∈ s.users, u.id ≠ i → u.email ≠ d.email) :
    (dbGetUser s i = none →
      update_user s i p = (.resp 404 (.message "Invalid user ID"), s)) ∧
    (∀ u, dbGetUser s i = some u →
      update_user s i p =
        (.resp 200 (.userJson ⟨none, d.name, d.email, some ad⟩),
         { s with users := s.users.map (fun v => if v.id == i
             then { v with name := d.name, email := d.email, address := ad } else v) })) := by
  obtain ⟨hn1, hn2, hn3, hn4, hn5, hn6, hn7, hn8, hn9⟩ := hwf
  constructor
  · intro h
    unfold update_user
    rw [h]
  · intro u hu
    have hfid : ∀ v : User, (if v.id == i
        then { v with name := d.name, email := d.email, address := ad } else v).id = v.id := by
      intro v
      split <;> rfl
    have hids : (s.users.map (fun v => if v.id == i
        then { v with name := d.name, email := d.email, address := ad } else v)).map User.id =
        s.users.map User.id := by
      rw [List.map_map]
      exact List.map_congr_left (fun v _ => hfid v)
    have hc : ConstraintsOk { s with users := s.users.map (fun v => if v.id == i
        then { v with name := d.name, email := d.email, address := ad } else v) } := by
      refine ⟨?_, ?_, hn3, hn4, hn5, hn6, hn7, ?_, ?_⟩
      · rw [hids]; exact hn1
      · exact nodup_emails_after_update s.users i d.name d.email ad hn1 hn2 hfresh
      · intro o ho uid huid
        obtain ⟨w, hw, hweq⟩ := hn8 o ho uid huid
        exact ⟨_, List.mem_map_of_mem _ hw, (hfid w).symm ▸ hweq⟩
      · intro pr hpr
        exact hn9 pr hpr
    unfold update_user
    rw [hu]
    simp only
    rw [hload]
    simp only
    rw [haddr]
    simp only
    unfold commitThen
    rw [if_pos hc]
    simp [dumpUserDict, haddr]

/-- Witness for C7: a successful full replacement of user 1's fields. -/
theorem claim_C7_witness :
    update_user dbUser1 1 ⟨some "Frank", some "frank@example.com", some (some "3 Elm St")⟩ =
      (.resp 200 (.userJson ⟨none, "Frank", "frank@example.com", some (some "3 Elm St")⟩),
       ⟨[⟨1, "Frank", "frank@example.com", some "3 Elm St"⟩], [], [], []⟩) :=
  (claim_C7_update_user_spec dbUser1 1
    ⟨some "Frank", some "frank@example.com", some (some "3 Elm St")⟩
    ⟨"Frank", "frank@example.com", some (some "3 Elm St")⟩ (some "3 Elm St")
    (by decide) (by rfl) (by rfl) (by decide)).2 adaUser (by rfl)

/-- Claim C8, counterexample: For user 1, who has the historical order 1,
DELETE /users/1 does not remove the user's row at all: SQLAlchemy's
default (cascade-free) handling of the `User.orders` relationship
de-associates the order by nulling `orders.user_id`, whose NOT NULL
constraint makes the commit raise an uncaught IntegrityError, so the
request fails as a 500 and the rolled-back state still holds the user
row (and the order row). -/
theorem claim_C8_counterexample :
    dbGetUser dbUserOrder 1 = some adaUser ∧
    delete_user dbUserOrder 1 = (.pyError "IntegrityError", dbUserOrder) ∧
    (delete_user dbUserOrder 1).2.users = [adaUser] ∧
    (delete_user dbUserOrder 1).2.orders = [order1] := by
  refine ⟨?_, ?_, ?_, ?_⟩ <;> rfl

/-- Claim C8, amended: For an existing user none of whose orders reference
them, DELETE /users/{id} removes only that user's row: the explicit
post-state keeps the orders, products and junction tables and every
other user.  For an existing user with at least one order, the DELETE
request fails with an uncaught IntegrityError (the flush tries to null
the NOT NULL `orders.user_id` column) and removes nothing â so the
user's historical order rows do remain in the database in either case,
but for a user with orders the user row is not removed. -/
theorem claim_C8_delete_user_spec (s : DBState) (i : Nat) (u : User)
    (hwf : ConstraintsOk s) (hu : dbGetUser s i = some u) :
    ((∀ o ∈ s.orders, o.user_id ≠ some i) →
      delete_user s i =
        (.resp 200 (.message ("succesfully deleted user ID: " ++ toString i)),
         { s with users := s.users.filter (fun v => v.id != i) })) ∧
    ((∃ o ∈ s.orders, o.user_id = some i) →
      delete_user s i = (.pyError "IntegrityError", s)) := by
  obtain ⟨hn1, hn2, hn3, hn4, hn5, hn6, hn7, hn8, hn9⟩ := hwf
  constructor
  · intro hno
    have hord : s.orders.map (fun o => if o.user_id == some i
        then { o with user_id := none } else o) = s.orders :=
      (List.map_congr_left (fun o ho => if_neg (by simp [hno o ho]))).trans
        (List.map_id _)
    unfold delete_user
    rw [hu]
    simp only
    rw [hord]
    unfold commitThen
    rw [if_pos]
    refine ⟨?_, ?_, hn3, hn4, hn5, hn6, hn7, ?_, ?_⟩
    · exact List.Nodup.sublist (List.Sublist.map User.id (List.filter_sublist s.users)) hn1
    · exact List.Nodup.sublist (List.Sublist.map User.email (List.filter_sublist s.users)) hn2
    · intro o ho uid huid
      obtain ⟨w, hw, hweq⟩ := hn8 o ho uid huid
      have hwi : w.id ≠ i := by
        intro hwi
        exact hno o ho (by rw [huid, ← hweq, hwi])
      exact ⟨w, List.mem_filter.mpr ⟨hw, bne_iff_ne.mpr hwi⟩, hweq⟩
    · intro pr hpr
      exact hn9 pr hpr
  · intro ⟨o, ho, hoi⟩
    unfold delete_user
    rw [hu]
    simp only
    unfold commitThen
    rw [if_neg]
    intro hc
    have h7 := hc.2.2.2.2.2.2.1
    have hmem : (if o.user_id == some i then { o with user_id := none } else o) ∈
        s.orders.map (fun o => if o.user_id == some i
          then { o with user_id := none } else o) :=
      List.mem_map_of_mem _ ho
    have := h7 _ hmem
    rw [if_pos (beq_iff_eq.mpr hoi)] at this
    simp at this

/-- Witness for C8 (amended): deleting user 1, who has no orders,
removes exactly the user row. -/
theorem claim_C8_witness :
    delete_user dbUser1 1 =
      (.resp 200 (.message "succesfully deleted user ID: 1"), dbEmpty) :=
  (claim_C8_delete_user_spec dbUser1 1 adaUser (by decide) (by rfl)).1
    (by decide)

end ECommerceApi
